import Mathlib

/-!
Verification development for the debt-collection voice-agent repository.

The definitions below are a shallow embedding of the per-call compliance
logic of `src/agents/DebtCollection.py` (tool methods of the agent classes),
of the call-termination and transfer logic shared with
`src/agents/OutboundCaller.py`, and of the session-dial coordinator
`src/caller.py`.

Modelling conventions:
* Python `float` money amounts are modelled as exact rationals (`ℚ`).
  Every concrete amount appearing in the claims (150.75, 25.125, 75.375,
  their rounded forms) is exactly representable as an IEEE-754 double and
  the intermediate products/quotients are computed exactly by the
  hardware, so the rational model agrees with the Python computation on
  all inputs used here.  Python `round(x, 2)` is round-half-to-even at
  two decimals (`round2` below).
* `datetime.datetime.now().isoformat()` is external; operations take the
  timestamp string as a parameter `now`.
* The conversational session (`ctx.session`), the room API and the SIP
  API are external collaborators; their invocations are recorded as
  explicit `Effect`s, and where a provider can fail its behaviour is a
  parameter of the embedded function.
* Python exceptions are modelled with `Except PyErr`.
-/

/-- Customer dataclass of `DebtCollection.py`. -/
structure Customer where
  account_number : String
  name : String
  phone : String
  email : String
deriving DecidableEq, Repr

/-- Debt dataclass of `DebtCollection.py`; `amount` is a Python float. -/
structure Debt where
  amount : ℚ
  creditor : String
  due_date : String
  status : String
deriving DecidableEq, Repr

/-- Dial dataclass of `DebtCollection.py`; an absent `transfer_to` is the
empty string (Python falsy). -/
structure Dial where
  «to» : String
  transfer_to : String
deriving DecidableEq, Repr

/-- Metadata dataclass of `DebtCollection.py`. -/
structure Metadata where
  customer : Customer
  debt : Debt
  dial : Dial
deriving DecidableEq, Repr

/-- Leaf values stored in the `data` mapping of a logged event: the code
stores only strings and integers there. -/
inductive Value
  | str (s : String)
  | int (n : Int)
deriving DecidableEq, Repr

/-- Event record built by `BaseAgent._log_event`.  The Lean field `event`
carries the serialized key `"event"` used by the code. -/
structure Event where
  event : String
  timestamp : String
  account_number : String
  data : List (String × Value)
deriving DecidableEq, Repr

/-- JSON-like values, used to state facts about the serialized shape of an
event record (`json.dumps(event)` in `_log_event`). -/
inductive JVal
  | jstr (s : String)
  | jint (n : Int)
  | jobj (kvs : List (String × JVal))

/-- Serialized top-level key-value shape of an event record, following the
dict literal in `BaseAgent._log_event`. -/
def Event.json (e : Event) : List (String × JVal) :=
  [("event", JVal.jstr e.event),
   ("timestamp", JVal.jstr e.timestamp),
   ("account_number", JVal.jstr e.account_number),
   ("data", JVal.jobj (e.data.map (fun kv =>
      (kv.1, match kv.2 with
             | Value.str s => JVal.jstr s
             | Value.int n => JVal.jint n))))]

/-- Embedded `BaseAgent._log_event`: builds the event record from the
event type, the current timestamp and the customer account number. -/
def log_event (m : Metadata) (now : String) (event_type : String)
    (data : List (String × Value)) : Event :=
  { event := event_type
    timestamp := now
    account_number := m.customer.account_number
    data := data }

/-- Nearest integer with ties to even, the rounding used by Python
`round` (banker rounding). -/
def roundHalfEven (q : ℚ) : ℤ :=
  let f := ⌊q⌋
  if q - f < 1/2 then f
  else if 1/2 < q - f then f + 1
  else if f % 2 = 0 then f else f + 1

/-- Python `round(x, 2)`: round to two decimal places, ties to even. -/
def round2 (q : ℚ) : ℚ := (roundHalfEven (q * 100) : ℚ) / 100

/-- Decimal string of a rational with at most two decimal places,
mirroring Python `str()` on such float values (shortest digits, at least
one fractional digit). -/
def decStr (q : ℚ) : String :=
  let a : ℚ := if q < 0 then -q else q
  let c : ℤ := ⌊a * 100⌋
  let whole : ℤ := c / 100
  let rem : ℤ := c % 100
  let fracStr : String :=
    if rem = 0 then "0"
    else if rem % 10 = 0 then toString (rem / 10)
    else if rem < 10 then "0" ++ toString rem
    else toString rem
  (if q < 0 then "-" else "") ++ toString whole ++ "." ++ fracStr

/-- Python `s[-4:]`: the last four characters of a string (the whole
string when it is shorter). -/
def lastFour (s : String) : String :=
  String.mk (s.data.drop (s.data.length - 4))

/-- Observable external actions performed by a tool method. -/
inductive Effect
  | logInfo (s : String)
  | logError (s : String)
  | logged (e : Event)
  | reply (instructions : String)
  | waitPlayout
  | deleteRoom
  | sipTransfer (dest : String)
deriving DecidableEq, Repr

/-- Values returned by a tool method: a string, the verification-success
dict of `verify_customer_identity`, or Python `None`. -/
inductive ToolResult
  | text (s : String)
  | verification (status : String) (customer : Customer) (debt : Debt)
  | pynone
deriving DecidableEq, Repr

/-- Python exceptions relevant to the embedded code. -/
inductive PyErr
  | zeroDivision
  | twirp (msg : String)
deriving DecidableEq, Repr

/-- Action vocabulary of the compliance state machine: one constructor per
tool method of `VerificationAgent`, `CustomerOptionsAgent`,
`CallManagementAgent.schedule_callback` and
`KnowledgeBaseAgent.creditor_policy_on_default`. -/
inductive Op
  | verify (last_four_digits : String)
  | reschedule (new_date reason : String)
  | plan (months : Int) (start : Bool)
  | settlement (settlement_percentage : Int)
  | hardship (hardship_type description : String)
  | cease (reason : String)
  | dispute
  | callback (date time reason : String)
  | policyLookup
deriving DecidableEq, Repr

/-- Reply instruction sent on a failed identity verification. -/
def withholdMsg : String :=
  "Politely inform the customer that you cannot discuss account details without proper verification and offer to try again or have them call back with the necessary information or proceed to end the call"

/-- Fixed policy statement of `creditor_policy_on_default`, parameterized
by the creditor name. -/
def policyStatement (creditor : String) : String :=
  "\n" ++ creditor ++ " Policy on Defaulted Accounts:\n1. Accounts are considered delinquent after 30 days of non-payment\n2. After 60 days, accounts enter the collections process\n3. At 90 days, accounts are marked as defaulted\n4. Defaulted accounts may be reported to credit bureaus\n5. After 120 days, accounts may be transferred to third-party collectors\n6. Settlement options may be available based on account history and circumstances\n7. Hardship programs are available for qualifying customers\n"

/-- Embedded body of each tool method: the effects it performs in order
and its return value.  The bodies are translated line by line from
`DebtCollection.py`; only `payment_plan` can raise (ZeroDivisionError on
`months = 0`). -/
def runOp (m : Metadata) (now : String) : Op → Except PyErr (List Effect × ToolResult)
  | Op.verify d =>
      let ev := log_event m now "identity_verification" [("last_four_digits", Value.str d)]
      if d = lastFour m.customer.account_number then
        Except.ok ([Effect.logged ev],
          ToolResult.verification "success" m.customer m.debt)
      else
        Except.ok ([Effect.logged ev, Effect.reply withholdMsg],
          ToolResult.text "Identity verification failed")
  | Op.reschedule new_date reason =>
      let ev := log_event m now "payment_rescheduled"
        [("new_date", Value.str new_date), ("reason", Value.str reason)]
      Except.ok
        ([Effect.logInfo ("Rescheduling payment to " ++ new_date ++ " for reason: " ++ reason),
          Effect.logged ev,
          Effect.reply ("Confirm the payment has been rescheduled to " ++ new_date ++ " and provide any additional instructions needed")],
         ToolResult.text ("Payment rescheduled to " ++ new_date))
  | Op.plan months start =>
      if months = 0 then Except.error PyErr.zeroDivision
      else
        let debt_amount := m.debt.amount
        let monthly_payment := round2 (debt_amount / (months : ℚ))
        if start then
          Except.ok
            ([Effect.logged (log_event m now "payment_plan_started" [("months", Value.int months)]),
              Effect.reply "Confirm the payment plan has been started and provide next steps for payment"],
             ToolResult.text ("Payment plan started: $" ++ decStr monthly_payment ++ "/month for 6 months"))
        else
          Except.ok
            ([Effect.logged (log_event m now "payment_plan_offered"
                [("months", Value.int months),
                 ("monthly_payment", Value.str (decStr monthly_payment)),
                 ("total_amount", Value.str (decStr debt_amount))]),
              Effect.reply ("Offer a payment plan of $" ++ decStr monthly_payment ++ " per month for 6 months")],
             ToolResult.text ("Payment plan offered: $" ++ decStr monthly_payment ++ "/month for 6 months"))
  | Op.settlement pct =>
      let debt_amount := m.debt.amount
      let settlement_amount := round2 (debt_amount * (pct : ℚ) / 100)
      Except.ok
        ([Effect.logInfo ("Offering settlement: $" ++ decStr settlement_amount ++ " (" ++ toString pct ++ "% of $" ++ decStr debt_amount ++ ")"),
          Effect.logged (log_event m now "settlement_offered"
            [("original_amount", Value.str (decStr debt_amount)),
             ("settlement_percentage", Value.int pct),
             ("settlement_amount", Value.str (decStr settlement_amount))]),
          Effect.reply ("Offer a settlement amount of $" ++ decStr settlement_amount ++ " (which is " ++ toString pct ++ "% of the original $" ++ decStr debt_amount ++ ") as a one-time payment option")],
         ToolResult.text ("Settlement offered: $" ++ decStr settlement_amount ++ " (" ++ toString pct ++ "%)"))
  | Op.hardship hardship_type description =>
      Except.ok
        ([Effect.logInfo ("Recording hardship claim: " ++ hardship_type),
          Effect.logged (log_event m now "hardship_claim"
            [("hardship_type", Value.str hardship_type), ("description", Value.str description)]),
          Effect.reply ("Acknowledge the " ++ hardship_type ++ " hardship with empathy and offer to adjust the payment options or timeline accordingly")],
         ToolResult.text ("Hardship claim for " ++ hardship_type ++ " recorded successfully"))
  | Op.cease reason =>
      Except.ok
        ([Effect.logInfo ("Cease communication request from " ++ reason),
          Effect.logged (log_event m now "cease_communication" [("reason", Value.str reason)]),
          Effect.reply "Acknowledge the customer\x27s request to cease communication, confirm that their request will be honored according to FDCPA regulations, and provide a professional closing to the call"],
         ToolResult.text "cease communication request processed")
  | Op.dispute =>
      Except.ok
        ([Effect.logInfo "Recording debt dispute",
          Effect.logged (log_event m now "debt_disputed" []),
          Effect.reply "Acknowledge the debt dispute and inform the customer that it will be processed according to FDCPA regulations"],
         ToolResult.text "Debt dispute recorded successfully")
  | Op.callback date time reason =>
      let formatted := date ++ " at " ++ time
      Except.ok
        ([Effect.logInfo ("Scheduling callback on " ++ formatted ++ ": " ++ reason),
          Effect.logged (log_event m now "callback_scheduled"
            [("date", Value.str date), ("time", Value.str time), ("reason", Value.str reason)]),
          Effect.reply ("Confirm the callback has been scheduled for " ++ formatted ++ " and provide a professional closing to the call")],
         ToolResult.text ("Callback scheduled for " ++ formatted))
  | Op.policyLookup =>
      Except.ok
        ([Effect.logInfo "Providing bank policy on defaulted accounts",
          Effect.logged (log_event m now "bank_policy_on_default" [])],
         ToolResult.text (policyStatement m.debt.creditor))

/-- Events recorded by `_log_event` within a list of effects. -/
def loggedEvents (effs : List Effect) : List Event :=
  effs.filterMap fun e =>
    match e with
    | Effect.logged ev => some ev
    | _ => none

/-- Per-call observable state.  The code keeps no verification flag at
all; `verified` here is history-derived bookkeeping (has a
`verify_customer_identity` call succeeded so far) used to state the gate
claims, and `log` is the sequence of emitted events. -/
structure CallState where
  verified : Bool
  log : List Event
deriving DecidableEq, Repr

/-- One state-machine transition: run the tool body, append its logged
events, and update the history-derived `verified` marker (only a
successful `verify` can set it; the code itself stores nothing). -/
def step (m : Metadata) (now : String) (op : Op) (st : CallState) :
    Except PyErr (CallState × List Effect × ToolResult) :=
  match runOp m now op with
  | Except.error e => Except.error e
  | Except.ok (effs, r) =>
      let v := st.verified ||
        (match op with
         | Op.verify d => decide (d = lastFour m.customer.account_number)
         | _ => false)
      Except.ok ({ verified := v, log := st.log ++ loggedEvents effs }, effs, r)

/-- Run a sequence of operations; an uncaught exception aborts the
sequence leaving the state as it was before the failing operation. -/
def runSeq (m : Metadata) (now : String) : List Op → CallState → CallState
  | [], st => st
  | op :: rest, st =>
      match step m now op st with
      | Except.ok (st2, _, _) => runSeq m now rest st2
      | Except.error _ => st

/-- Gated operations named by the verification-gate claim:
`payment_reschedule`, `payment_plan`, `payment_settlement`,
`claim_hardship`. -/
def isGated : Op → Bool
  | Op.reschedule _ _ => true
  | Op.plan _ _ => true
  | Op.settlement _ => true
  | Op.hardship _ _ => true
  | _ => false

/-- Sample call metadata, taken from the dispatch payload in
`src/dispatch.py` (customer David Jackson, account 5033-4329, debt
150.75 owed to Bank of America); dial numbers are representative since
`dispatch.py` reads them from the environment. -/
def sampleMeta : Metadata :=
  { customer :=
      { account_number := "5033-4329"
        name := "David Jackson"
        phone := "+15551234567"
        email := "" }
    debt :=
      { amount := (150.75 : ℚ)
        creditor := "Bank of America"
        due_date := ""
        status := "unpaid" }
    dial :=
      { «to» := "+15551234567"
        transfer_to := "+15557654321" } }

/-- Sample timestamp standing for `datetime.datetime.now().isoformat()`. -/
def t0 : String := "2025-06-14T09:00:00"

/-- Room-deletion provider behaviour when asked to delete a room that no
longer exists: LiveKit `delete_room` is an external collaborator and the
repository never handles its errors, so both behaviours are modelled. -/
inductive DeletePolicy
  | treatAsSuccess
  | raiseNotFound
deriving DecidableEq, Repr

/-- State of the call room resource: whether the room still exists. -/
structure RoomCtx where
  roomExists : Bool
deriving DecidableEq, Repr

/-- Embedded `job_ctx.api.room.delete_room`: deletes an existing room;
the outcome on an already-deleted room is the provider policy. -/
def delete_room (policy : DeletePolicy) (room : RoomCtx) : Except PyErr RoomCtx :=
  if room.roomExists then Except.ok { roomExists := false }
  else
    match policy with
    | DeletePolicy.treatAsSuccess => Except.ok room
    | DeletePolicy.raiseNotFound => Except.error (PyErr.twirp "requested room does not exist")

/-- Embedded `CallManagementAgent.end_call` (identical in
`OutboundCaller.py`): log, wait for any current speech to finish playing,
then delete the room; there is no exception handler, so a provider error
propagates. -/
def end_call (policy : DeletePolicy) (hasSpeech : Bool) (room : RoomCtx) :
    Except PyErr (List Effect × RoomCtx) :=
  let effs := [Effect.logInfo "ending the call"] ++
    (if hasSpeech then [Effect.waitPlayout] else []) ++ [Effect.deleteRoom]
  match delete_room policy room with
  | Except.ok room2 => Except.ok (effs, room2)
  | Except.error e => Except.error e

/-- Two consecutive invocations of `end_call` on the same call. -/
def end_call_twice (policy : DeletePolicy) (s1 s2 : Bool) (room : RoomCtx) :
    Except PyErr (List Effect × RoomCtx) :=
  match end_call policy s1 room with
  | Except.ok (effs1, room2) =>
      match end_call policy s2 room2 with
      | Except.ok (effs2, room3) => Except.ok (effs1 ++ effs2, room3)
      | Except.error e => Except.error e
  | Except.error e => Except.error e

/-- Embedded `CallManagementAgent.transfer_call` (identical in
`OutboundCaller.py`): refuse without a configured target; otherwise issue
the SIP transfer, and catch any provider error (`providerError = some e`),
converting it into a reply instruction.  The method never raises and
never deletes the room. -/
def transfer_call (providerError : Option String) (m : Metadata) :
    Except PyErr (List Effect × ToolResult) :=
  let t := m.dial.transfer_to
  if t = "" then
    Except.ok ([], ToolResult.text "sorry, cannot transfer the call at the moment")
  else
    match providerError with
    | none =>
        Except.ok
          ([Effect.logInfo ("transferring call to " ++ t),
            Effect.sipTransfer t,
            Effect.logInfo ("transferred call to " ++ t)],
           ToolResult.pynone)
    | some e =>
        Except.ok
          ([Effect.logInfo ("transferring call to " ++ t),
            Effect.sipTransfer t,
            Effect.logError ("error transferring call: " ++ e),
            Effect.reply "there was an error transferring the call"],
           ToolResult.pynone)

/-- Outcome of the outbound dial (`create_sip_participant` with
`wait_until_answered=True`): the remote party answers, or the provider
raises a TwirpError carrying a message and SIP status metadata. -/
inductive DialOutcome
  | answered
  | twirpError (message sipStatusCode sipStatus : String)
deriving DecidableEq, Repr

/-- Steps performed by the coordinator entrypoint of `src/caller.py`, in
program order. -/
inductive CStep
  | logInfo (s : String)
  | registerShutdownCallback
  | connect
  | buildAgentAndSession
  | startSessionTask
  | dialSip («to» : String)
  | awaitSessionStart
  | waitParticipant (identity : String)
  | bindParticipant (identity : String)
  | logError (s : String)
  | shutdownCtx
deriving DecidableEq, Repr

/-- Recognizer for participant-join waits in a coordinator trace. -/
def CStep.isWaitParticipant : CStep → Bool
  | CStep.waitParticipant _ => true
  | _ => false

/-- Embedded `entrypoint` of `src/caller.py` as the trace of steps it
performs: it registers the transcript shutdown callback, connects, builds
the agent and session, launches `session.start` as a background task
(`asyncio.create_task`), then awaits the dial; only after the dial
answers does it await the session-start task and the participant join.
On a TwirpError from the dial it logs the SIP status and shuts the call
context down. -/
def entrypoint (room phone : String) (dial : DialOutcome) : List CStep :=
  [CStep.logInfo ("connecting to room " ++ room),
   CStep.registerShutdownCallback,
   CStep.connect,
   CStep.buildAgentAndSession,
   CStep.startSessionTask,
   CStep.dialSip phone] ++
  (match dial with
   | DialOutcome.answered =>
       [CStep.awaitSessionStart,
        CStep.waitParticipant phone,
        CStep.logInfo ("participant joined: " ++ phone),
        CStep.bindParticipant phone]
   | DialOutcome.twirpError msg code status =>
       [CStep.logError ("error creating SIP participant: " ++ msg ++ ", SIP status: " ++ code ++ " " ++ status),
        CStep.shutdownCtx])

/-- Event type logged by each operation, as written in the source. -/
def eventName : Op → String
  | Op.verify _ => "identity_verification"
  | Op.reschedule _ _ => "payment_rescheduled"
  | Op.plan _ start => if start then "payment_plan_started" else "payment_plan_offered"
  | Op.settlement _ => "settlement_offered"
  | Op.hardship _ _ => "hardship_claim"
  | Op.cease _ => "cease_communication"
  | Op.dispute => "debt_disputed"
  | Op.callback _ _ _ => "callback_scheduled"
  | Op.policyLookup => "bank_policy_on_default"

/-- Data mapping logged by each operation, as written in the source; money
amounts appear as decimal strings via `decStr` (Python `str()`). -/
def eventData (m : Metadata) : Op → List (String × Value)
  | Op.verify d => [("last_four_digits", Value.str d)]
  | Op.reschedule nd r => [("new_date", Value.str nd), ("reason", Value.str r)]
  | Op.plan months start =>
      if start then [("months", Value.int months)]
      else
        [("months", Value.int months),
         ("monthly_payment", Value.str (decStr (round2 (m.debt.amount / (months : ℚ))))),
         ("total_amount", Value.str (decStr m.debt.amount))]
  | Op.settlement pct =>
      [("original_amount", Value.str (decStr m.debt.amount)),
       ("settlement_percentage", Value.int pct),
       ("settlement_amount", Value.str (decStr (round2 (m.debt.amount * (pct : ℚ) / 100))))]
  | Op.hardship ht d => [("hardship_type", Value.str ht), ("description", Value.str d)]
  | Op.cease r => [("reason", Value.str r)]
  | Op.dispute => []
  | Op.callback d tm r => [("date", Value.str d), ("time", Value.str tm), ("reason", Value.str r)]
  | Op.policyLookup => []

/-- Claim C10: invoking `payment_plan` with `months = 0` divides the debt
amount by zero and raises ZeroDivisionError before any event is logged:
the sequence aborts with the call state (in particular the event log)
unchanged. -/
theorem plan_zero_months_division_error (m : Metadata) (now : String) (start : Bool)
    (st : CallState) :
    step m now (Op.plan 0 start) st = Except.error PyErr.zeroDivision ∧
    runSeq m now [Op.plan 0 start] st = st := by
  constructor
  · simp [step, runOp]
  · simp [runSeq, step, runOp]

/-- Helper: the tie 25.125 rounds to the even cent 2512 under Python
banker rounding (150.75 / 6 = 201/8 = 25.125 exactly). -/
theorem roundHalfEven_monthly : roundHalfEven ((201:ℚ) / 8 * 100) = 2512 := by
  have hq : ((201 : ℚ) / 8 * 100) = 5025/2 := by norm_num
  have hf : ⌊(5025/2 : ℚ)⌋ = 2512 := by norm_num
  simp only [roundHalfEven, hq, hf]
  norm_num

/-- Helper: `round(150.75 / 6, 2)` evaluates to 25.12. -/
theorem round2_monthly : round2 ((201:ℚ) / 8) = 628/25 := by
  simp only [round2, roundHalfEven_monthly]
  norm_num

/-- Helper: the tie 75.375 rounds up to 7538 (7537 is odd). -/
theorem roundHalfEven_settle : roundHalfEven ((603:ℚ) / 8 * 100) = 7538 := by
  have hq : ((603 : ℚ) / 8 * 100) = 15075/2 := by norm_num
  have hf : ⌊(15075/2 : ℚ)⌋ = 7537 := by norm_num
  simp only [roundHalfEven, hq, hf]
  norm_num

/-- Helper: `round(150.75 * 50 / 100, 2)` evaluates to 75.38. -/
theorem round2_settle : round2 ((603:ℚ) / 8) = 3769/50 := by
  simp only [round2, roundHalfEven_settle]
  norm_num

/-- Helper: Python `str(25.12)` is "25.12". -/
theorem decStr_monthly : decStr (628/25 : ℚ) = "25.12" := by
  have h1 : ¬ ((628/25 : ℚ) < 0) := by norm_num
  have h2 : ⌊(628/25 : ℚ) * 100⌋ = 2512 := by norm_num
  simp only [decStr, h2, if_neg h1]
  decide

/-- Helper: Python `str(75.38)` is "75.38". -/
theorem decStr_settle : decStr (3769/50 : ℚ) = "75.38" := by
  have h1 : ¬ ((3769/50 : ℚ) < 0) := by norm_num
  have h2 : ⌊(3769/50 : ℚ) * 100⌋ = 7538 := by norm_num
  simp only [decStr, h2, if_neg h1]
  decide

/-- Helper: Python `str(150.75)` is "150.75". -/
theorem decStr_debt : decStr (603/4 : ℚ) = "150.75" := by
  have h1 : ¬ ((603/4 : ℚ) < 0) := by norm_num
  have h2 : ⌊(603/4 : ℚ) * 100⌋ = 15075 := by norm_num
  simp only [decStr, h2, if_neg h1]
  decide

/-- Helper: evaluation of `payment_plan(months=6, start=False)` on the
sample metadata. -/
theorem runOp_plan_sample :
    runOp sampleMeta t0 (Op.plan 6 false) =
      Except.ok
        ([Effect.logged (log_event sampleMeta t0 "payment_plan_offered"
            [("months", Value.int 6),
             ("monthly_payment", Value.str "25.12"),
             ("total_amount", Value.str "150.75")]),
          Effect.reply "Offer a payment plan of $25.12 per month for 6 months"],
         ToolResult.text "Payment plan offered: $25.12/month for 6 months") := by
  simp only [runOp, sampleMeta]
  norm_num [round2_monthly, decStr_monthly, decStr_debt]
  exact ⟨rfl, rfl⟩

/-- Helper: evaluation of `payment_settlement(settlement_percentage=50)`
on the sample metadata. -/
theorem runOp_settlement_sample :
    runOp sampleMeta t0 (Op.settlement 50) =
      Except.ok
        ([Effect.logInfo "Offering settlement: $75.38 (50% of $150.75)",
          Effect.logged (log_event sampleMeta t0 "settlement_offered"
            [("original_amount", Value.str "150.75"),
             ("settlement_percentage", Value.int 50),
             ("settlement_amount", Value.str "75.38")]),
          Effect.reply "Offer a settlement amount of $75.38 (which is 50% of the original $150.75) as a one-time payment option"],
         ToolResult.text "Settlement offered: $75.38 (50%)") := by
  simp only [runOp, sampleMeta]
  norm_num [round2_settle, decStr_settle, decStr_debt]
  decide

/-- Claim C3, counterexample: on the sample debt of 150.75 the payment
plan with months = 6 computes `monthly_payment = 25.12`, not 25.13 as the
claim states: 150.75 / 6 = 25.125 exactly, and Python `round` resolves
the tie to the even cent (banker rounding), giving 25.12. -/
theorem monthly_payment_is_25_12_not_25_13 :
    round2 ((150.75 : ℚ) / 6) = 25.12 ∧
    ¬ round2 ((150.75 : ℚ) / 6) = 25.13 ∧
    runOp sampleMeta t0 (Op.plan 6 false) =
      Except.ok
        ([Effect.logged (log_event sampleMeta t0 "payment_plan_offered"
            [("months", Value.int 6),
             ("monthly_payment", Value.str "25.12"),
             ("total_amount", Value.str "150.75")]),
          Effect.reply "Offer a payment plan of $25.12 per month for 6 months"],
         ToolResult.text "Payment plan offered: $25.12/month for 6 months") :=
  ⟨by norm_num [round2_monthly], by norm_num [round2_monthly], runOp_plan_sample⟩

/-- Claim C3, amended: on a debt of 150.75, `payment_plan(months=6)`
computes `monthly_payment = 25.12` (not 25.13) and
`payment_settlement(settlement_percentage=50)` computes
`settlement_amount = 75.38`; money is rounded to 2 decimal places at the
point of computation with round-half-to-even (Python `round`), not
round-half-up. -/
theorem plan_and_settlement_rounding :
    round2 ((150.75 : ℚ) / 6) = 25.12 ∧
    round2 ((150.75 : ℚ) * 50 / 100) = 75.38 ∧
    runOp sampleMeta t0 (Op.plan 6 false) =
      Except.ok
        ([Effect.logged (log_event sampleMeta t0 "payment_plan_offered"
            [("months", Value.int 6),
             ("monthly_payment", Value.str "25.12"),
             ("total_amount", Value.str "150.75")]),
          Effect.reply "Offer a payment plan of $25.12 per month for 6 months"],
         ToolResult.text "Payment plan offered: $25.12/month for 6 months") ∧
    runOp sampleMeta t0 (Op.settlement 50) =
      Except.ok
        ([Effect.logInfo "Offering settlement: $75.38 (50% of $150.75)",
          Effect.logged (log_event sampleMeta t0 "settlement_offered"
            [("original_amount", Value.str "150.75"),
             ("settlement_percentage", Value.int 50),
             ("settlement_amount", Value.str "75.38")]),
          Effect.reply "Offer a settlement amount of $75.38 (which is 50% of the original $150.75) as a one-time payment option"],
         ToolResult.text "Settlement offered: $75.38 (50%)") :=
  ⟨by norm_num [round2_monthly], by norm_num [round2_settle],
   runOp_plan_sample, runOp_settlement_sample⟩

/-- Helper: the outcome (effects and return value) of every operation is
independent of the call state — no tool body reads any per-call mutable
state. -/
theorem step_outcome_state_free (m : Metadata) (now : String) (op : Op) (st st2 : CallState) :
    Except.map (fun p => p.2) (step m now op st) =
      Except.map (fun p => p.2) (step m now op st2) := by
  unfold step
  cases runOp m now op with
  | error e => rfl
  | ok p =>
      obtain ⟨effs, r⟩ := p
      rfl

/-- Helper: a completed operation changes the event log exactly by
appending the events it logged. -/
theorem step_log_append (m : Metadata) (now : String) (op : Op) (st st3 : CallState)
    (effs : List Effect) (r : ToolResult)
    (h : step m now op st = Except.ok (st3, effs, r)) :
    st3.log = st.log ++ loggedEvents effs := by
  unfold step at h
  split at h
  · cases h
  · simp only [Except.ok.injEq, Prod.mk.injEq] at h
    obtain ⟨h1, h2, h3⟩ := h
    subst h1 h2
    rfl

/-- Helper: no gated operation changes the history-derived verification
marker (none of them reads or writes any verification state). -/
theorem step_gated_keeps_verified (m : Metadata) (now : String) (g : Op)
    (hg : isGated g = true) (st st3 : CallState) (effs : List Effect) (r : ToolResult)
    (h : step m now g st = Except.ok (st3, effs, r)) :
    st3.verified = st.verified := by
  unfold step at h
  split at h
  · cases h
  · simp only [Except.ok.injEq, Prod.mk.injEq] at h
    obtain ⟨h1, h2, h3⟩ := h
    subst h1
    cases g <;> simp_all [isGated]

/-- Claim C1, counterexample: from the initial, unverified call state
(no `verify_identity` has run), `payment_plan(months=6, start=False)` does
not return a refusal: it executes in full — it logs the
`payment_plan_offered` event, instructs the conversational layer to offer
the plan, and returns the normal confirmation text, which differs from
the refusal outcome the program produces for failed verification.  No
code-level verification gate exists in `CustomerOptionsAgent`. -/
theorem gated_op_before_verification_executes :
    step sampleMeta t0 (Op.plan 6 false) { verified := false, log := [] } =
      Except.ok
        ({ verified := false,
           log := [log_event sampleMeta t0 "payment_plan_offered"
             [("months", Value.int 6),
              ("monthly_payment", Value.str "25.12"),
              ("total_amount", Value.str "150.75")]] },
         [Effect.logged (log_event sampleMeta t0 "payment_plan_offered"
             [("months", Value.int 6),
              ("monthly_payment", Value.str "25.12"),
              ("total_amount", Value.str "150.75")]),
          Effect.reply "Offer a payment plan of $25.12 per month for 6 months"],
         ToolResult.text "Payment plan offered: $25.12/month for 6 months") ∧
    ToolResult.text "Payment plan offered: $25.12/month for 6 months" ≠
      ToolResult.text "Identity verification failed" := by
  constructor
  · unfold step
    rw [runOp_plan_sample]
    rfl
  · decide

/-- Claim C1, amended: the code enforces no verification gate.  A gated
operation (`payment_reschedule`, `payment_plan`, `payment_settlement`,
`claim_hardship`) invoked before `verify_identity` has succeeded behaves
exactly as it does in any other state: its effects and return value are
independent of the call state, and on completion its only state change
is appending its logged events — it neither reads nor writes the
verification status. -/
theorem gated_ops_ignore_verification_state (m : Metadata) (now : String) (g : Op)
    (hg : isGated g = true) (st st2 : CallState) :
    Except.map (fun p => p.2) (step m now g st) =
      Except.map (fun p => p.2) (step m now g st2) ∧
    ∀ st3 effs r, step m now g st = Except.ok (st3, effs, r) →
      st3.verified = st.verified ∧ st3.log = st.log ++ loggedEvents effs := by
  refine ⟨step_outcome_state_free m now g st st2, ?_⟩
  intro st3 effs r h
  exact ⟨step_gated_keeps_verified m now g hg st st3 effs r h,
         step_log_append m now g st st3 effs r h⟩

/-- Claim C1, witness for the amended theorem: instantiated for
`payment_settlement(50)` run in the unverified and in the verified
initial state. -/
theorem gated_ops_ignore_verification_state_witness :
    Except.map (fun p => p.2)
        (step sampleMeta t0 (Op.settlement 50) { verified := false, log := [] }) =
      Except.map (fun p => p.2)
        (step sampleMeta t0 (Op.settlement 50) { verified := true, log := [] }) :=
  (gated_ops_ignore_verification_state sampleMeta t0 (Op.settlement 50) rfl
    { verified := false, log := [] } { verified := true, log := [] }).1

/-- Claim C2, counterexample: `cease_communication` performs exactly an
info log, one logged event and one reply instruction — it performs no
room deletion and no wait-for-playout, so it does not trigger call
termination.  Ending the call remains a separate `end_call` invocation. -/
theorem cease_communication_never_deletes_room :
    runOp sampleMeta t0 (Op.cease "customer request") =
      Except.ok
        ([Effect.logInfo "Cease communication request from customer request",
          Effect.logged (log_event sampleMeta t0 "cease_communication"
            [("reason", Value.str "customer request")]),
          Effect.reply "Acknowledge the customer\x27s request to cease communication, confirm that their request will be honored according to FDCPA regulations, and provide a professional closing to the call"],
         ToolResult.text "cease communication request processed") ∧
    Effect.deleteRoom ∉
        [Effect.logInfo "Cease communication request from customer request",
         Effect.logged (log_event sampleMeta t0 "cease_communication"
           [("reason", Value.str "customer request")]),
         Effect.reply "Acknowledge the customer\x27s request to cease communication, confirm that their request will be honored according to FDCPA regulations, and provide a professional closing to the call"] ∧
    Effect.waitPlayout ∉
        [Effect.logInfo "Cease communication request from customer request",
         Effect.logged (log_event sampleMeta t0 "cease_communication"
           [("reason", Value.str "customer request")]),
         Effect.reply "Acknowledge the customer\x27s request to cease communication, confirm that their request will be honored according to FDCPA regulations, and provide a professional closing to the call"] := by
  refine ⟨rfl, by decide, by decide⟩

/-- Claim C2, amended: invoking `cease_communication` logs the
`cease_communication` event and instructs the conversational layer to
acknowledge the request and close the call professionally; it does not
itself trigger call termination — no room deletion effect is performed
by the operation. -/
theorem cease_logs_and_acknowledges (m : Metadata) (now reason : String) (st : CallState) :
    step m now (Op.cease reason) st =
      Except.ok
        ({ verified := st.verified,
           log := st.log ++ [log_event m now "cease_communication" [("reason", Value.str reason)]] },
         [Effect.logInfo ("Cease communication request from " ++ reason),
          Effect.logged (log_event m now "cease_communication" [("reason", Value.str reason)]),
          Effect.reply "Acknowledge the customer\x27s request to cease communication, confirm that their request will be honored according to FDCPA regulations, and provide a professional closing to the call"],
         ToolResult.text "cease communication request processed") ∧
    Effect.deleteRoom ∉
        [Effect.logInfo ("Cease communication request from " ++ reason),
         Effect.logged (log_event m now "cease_communication" [("reason", Value.str reason)]),
         Effect.reply "Acknowledge the customer\x27s request to cease communication, confirm that their request will be honored according to FDCPA regulations, and provide a professional closing to the call"] := by
  constructor
  · unfold step
    simp [runOp, loggedEvents]
  · simp

/-- Claim C6: `verify_customer_identity` never raises (it always returns
normally); it yields the success outcome exactly when the supplied digits
equal the last four characters of the account number, in which case the
history-derived verification marker becomes true; on a mismatch it
returns the distinct failure text and instructs the caller to withhold
account details; and the two outcomes are distinct. -/
theorem verify_identity_success_iff_match (m : Metadata) (now d : String) (st : CallState) :
    step m now (Op.verify d) st =
      Except.ok
        ({ verified := st.verified || decide (d = lastFour m.customer.account_number),
           log := st.log ++
             [log_event m now "identity_verification" [("last_four_digits", Value.str d)]] },
         if d = lastFour m.customer.account_number then
           ([Effect.logged (log_event m now "identity_verification"
               [("last_four_digits", Value.str d)])],
            ToolResult.verification "success" m.customer m.debt)
         else
           ([Effect.logged (log_event m now "identity_verification"
               [("last_four_digits", Value.str d)]),
             Effect.reply withholdMsg],
            ToolResult.text "Identity verification failed")) ∧
    ToolResult.verification "success" m.customer m.debt ≠
      ToolResult.text "Identity verification failed" := by
  constructor
  · by_cases hd : d = lastFour m.customer.account_number
    · unfold step
      simp [runOp, hd, loggedEvents]
    · unfold step
      simp [runOp, hd, loggedEvents]
  · simp

/-- Claim C4, counterexample: `end_call` contains no exception handler
around room deletion, so when the deletion provider raises on an
already-deleted room (LiveKit reports a missing room as an error), the
second of two consecutive `end_call` invocations raises. -/
theorem second_end_call_can_raise :
    end_call_twice DeletePolicy.raiseNotFound false false { roomExists := true } =
      Except.error (PyErr.twirp "requested room does not exist") := by
  rfl

/-- Claim C4, amended: `end_call` waits for in-flight speech and then
requests room deletion unconditionally, propagating the provider result
unchanged — the code contains no handling of an already-deleted room.  A
second consecutive invocation therefore never raises exactly when the
provider itself treats deleting an absent room as success. -/
theorem end_call_propagates_provider_result (policy : DeletePolicy) (s1 s2 : Bool) :
    end_call policy s1 { roomExists := true } =
      Except.ok
        ([Effect.logInfo "ending the call"] ++ (if s1 then [Effect.waitPlayout] else []) ++
           [Effect.deleteRoom],
         { roomExists := false }) ∧
    end_call policy s2 { roomExists := false } =
      Except.map
        (fun room2 =>
          ([Effect.logInfo "ending the call"] ++ (if s2 then [Effect.waitPlayout] else []) ++
             [Effect.deleteRoom],
           room2))
        (delete_room policy { roomExists := false }) ∧
    end_call_twice DeletePolicy.treatAsSuccess s1 s2 { roomExists := true } =
      Except.ok
        (([Effect.logInfo "ending the call"] ++ (if s1 then [Effect.waitPlayout] else []) ++
            [Effect.deleteRoom]) ++
         ([Effect.logInfo "ending the call"] ++ (if s2 then [Effect.waitPlayout] else []) ++
            [Effect.deleteRoom]),
         { roomExists := false }) := by
  refine ⟨?_, ?_, ?_⟩
  · cases s1 <;> rfl
  · cases policy <;> cases s2 <;> rfl
  · cases s1 <;> cases s2 <;> rfl

/-- Helper: a completed tool body logs exactly the one event whose type
and data are given by `eventName` and `eventData`. -/
theorem runOp_logs_one_event (m : Metadata) (now : String) (op : Op)
    (effs : List Effect) (r : ToolResult)
    (hrun : runOp m now op = Except.ok (effs, r)) :
    loggedEvents effs = [log_event m now (eventName op) (eventData m op)] := by
  cases op with
  | verify d =>
      by_cases hd : d = lastFour m.customer.account_number <;>
        (simp only [runOp, hd, if_true, if_false, Except.ok.injEq, Prod.mk.injEq, ite_true,
           ite_false] at hrun;
         obtain ⟨h1, h2⟩ := hrun;
         subst h1;
         simp [loggedEvents, eventName, eventData, hd])
  | reschedule nd rs =>
      simp only [runOp, Except.ok.injEq, Prod.mk.injEq] at hrun
      obtain ⟨h1, h2⟩ := hrun
      subst h1
      simp [loggedEvents, eventName, eventData]
  | plan months start =>
      by_cases hm : months = 0
      · simp [runOp, hm] at hrun
      · cases start <;>
          (simp only [runOp, hm, if_false, ite_false, ite_true, Except.ok.injEq,
             Prod.mk.injEq, Bool.false_eq_true, Bool.true_eq_false] at hrun;
           obtain ⟨h1, h2⟩ := hrun;
           subst h1;
           simp [loggedEvents, eventName, eventData])
  | settlement pct =>
      simp only [runOp, Except.ok.injEq, Prod.mk.injEq] at hrun
      obtain ⟨h1, h2⟩ := hrun
      subst h1
      simp [loggedEvents, eventName, eventData]
  | hardship ht ds =>
      simp only [runOp, Except.ok.injEq, Prod.mk.injEq] at hrun
      obtain ⟨h1, h2⟩ := hrun
      subst h1
      simp [loggedEvents, eventName, eventData]
  | cease rs =>
      simp only [runOp, Except.ok.injEq, Prod.mk.injEq] at hrun
      obtain ⟨h1, h2⟩ := hrun
      subst h1
      simp [loggedEvents, eventName, eventData]
  | dispute =>
      simp only [runOp, Except.ok.injEq, Prod.mk.injEq] at hrun
      obtain ⟨h1, h2⟩ := hrun
      subst h1
      simp [loggedEvents, eventName, eventData]
  | callback dt tm rs =>
      simp only [runOp, Except.ok.injEq, Prod.mk.injEq] at hrun
      obtain ⟨h1, h2⟩ := hrun
      subst h1
      simp [loggedEvents, eventName, eventData]
  | policyLookup =>
      simp only [runOp, Except.ok.injEq, Prod.mk.injEq] at hrun
      obtain ⟨h1, h2⟩ := hrun
      subst h1
      simp [loggedEvents, eventName, eventData]

/-- Claim C5, counterexample: the serialized event record has no field
named `event_type`; the action name is stored under the key `event` (see
the dict literal in `BaseAgent._log_event`), as the record logged by
`dispute_debt` shows. -/
theorem event_record_has_no_event_type_field :
    (log_event sampleMeta t0 "debt_disputed" []).json.lookup "event_type" = none ∧
    (log_event sampleMeta t0 "debt_disputed" []).json.lookup "event" =
      some (JVal.jstr "debt_disputed") ∧
    runOp sampleMeta t0 Op.dispute =
      Except.ok
        ([Effect.logInfo "Recording debt dispute",
          Effect.logged (log_event sampleMeta t0 "debt_disputed" []),
          Effect.reply "Acknowledge the debt dispute and inform the customer that it will be processed according to FDCPA regulations"],
         ToolResult.text "Debt dispute recorded successfully") :=
  ⟨rfl, rfl, rfl⟩

/-- Claim C5, amended: every state-machine operation, on completion,
emits exactly one event record whose fields are `event` (naming the
action), `timestamp` (the isoformat time of the call), `account_number`,
and `data` holding the inputs of the operation, with money amounts serialized
as decimal strings (see `eventData`); the event is appended to the log. -/
theorem each_op_logs_exactly_one_event (m : Metadata) (now : String) (op : Op)
    (st st2 : CallState) (effs : List Effect) (r : ToolResult)
    (h : step m now op st = Except.ok (st2, effs, r)) :
    loggedEvents effs = [log_event m now (eventName op) (eventData m op)] ∧
    st2.log = st.log ++ [log_event m now (eventName op) (eventData m op)] := by
  have heffs : runOp m now op = Except.ok (effs, r) := by
    unfold step at h
    split at h
    · cases h
    · rename_i effs0 r0 heq
      simp only [Except.ok.injEq, Prod.mk.injEq] at h
      obtain ⟨h1, h2, h3⟩ := h
      subst h2 h3
      exact heq
  have hone := runOp_logs_one_event m now op effs r heffs
  refine ⟨hone, ?_⟩
  rw [step_log_append m now op st st2 effs r h, hone]

/-- Claim C5, witness for the amended theorem: instantiated for
`dispute_debt` run from the initial call state. -/
theorem each_op_logs_exactly_one_event_witness :
    loggedEvents
        [Effect.logInfo "Recording debt dispute",
         Effect.logged (log_event sampleMeta t0 "debt_disputed" []),
         Effect.reply "Acknowledge the debt dispute and inform the customer that it will be processed according to FDCPA regulations"] =
      [log_event sampleMeta t0 (eventName Op.dispute) (eventData sampleMeta Op.dispute)] :=
  (each_op_logs_exactly_one_event sampleMeta t0 Op.dispute
    { verified := false, log := [] }
    { verified := false, log := [log_event sampleMeta t0 "debt_disputed" []] }
    [Effect.logInfo "Recording debt dispute",
     Effect.logged (log_event sampleMeta t0 "debt_disputed" []),
     Effect.reply "Acknowledge the debt dispute and inform the customer that it will be processed according to FDCPA regulations"]
    (ToolResult.text "Debt dispute recorded successfully") rfl).1

/-- Claim C7: with a configured transfer target, a provider error during
`transfer_call` is caught and converted into an instruction to speak an
apology; the method returns normally (never raises) and performs no room
deletion, so the call continues. -/
theorem transfer_error_absorbed (m : Metadata) (e : String)
    (h : ¬ m.dial.transfer_to = "") :
    transfer_call (some e) m =
      Except.ok
        ([Effect.logInfo ("transferring call to " ++ m.dial.transfer_to),
          Effect.sipTransfer m.dial.transfer_to,
          Effect.logError ("error transferring call: " ++ e),
          Effect.reply "there was an error transferring the call"],
         ToolResult.pynone) ∧
    Effect.deleteRoom ∉
        [Effect.logInfo ("transferring call to " ++ m.dial.transfer_to),
         Effect.sipTransfer m.dial.transfer_to,
         Effect.logError ("error transferring call: " ++ e),
         Effect.reply "there was an error transferring the call"] := by
  constructor
  · simp [transfer_call, h]
  · simp

/-- Claim C7, witness: instantiated for the sample metadata (transfer
target configured) and a concrete provider error. -/
theorem transfer_error_absorbed_witness :
    transfer_call (some "twirp internal error") sampleMeta =
      Except.ok
        ([Effect.logInfo ("transferring call to " ++ sampleMeta.dial.transfer_to),
          Effect.sipTransfer sampleMeta.dial.transfer_to,
          Effect.logError ("error transferring call: " ++ "twirp internal error"),
          Effect.reply "there was an error transferring the call"],
         ToolResult.pynone) ∧
    Effect.deleteRoom ∉
        [Effect.logInfo ("transferring call to " ++ sampleMeta.dial.transfer_to),
         Effect.sipTransfer sampleMeta.dial.transfer_to,
         Effect.logError ("error transferring call: " ++ "twirp internal error"),
         Effect.reply "there was an error transferring the call"] :=
  transfer_error_absorbed sampleMeta "twirp internal error" (by decide)

/-- Claim C8: in every trace of the coordinator entrypoint, the
session-start task is launched strictly before the dial request is
awaited (the first six steps are fixed, with `startSessionTask` preceding
`dialSip`), and the session start is never re-launched later; hence the
session is already listening when the dial can first be answered,
whatever the dial outcome. -/
theorem session_start_launched_before_dial (room phone : String) (dial : DialOutcome) :
    ∃ tail,
      entrypoint room phone dial =
        [CStep.logInfo ("connecting to room " ++ room),
         CStep.registerShutdownCallback,
         CStep.connect,
         CStep.buildAgentAndSession,
         CStep.startSessionTask,
         CStep.dialSip phone] ++ tail ∧
      tail.contains CStep.startSessionTask = false := by
  cases dial with
  | answered => exact ⟨_, rfl, rfl⟩
  | twirpError msg code status => exact ⟨_, rfl, rfl⟩

/-- Claim C9: when the dial provider raises, the coordinator logs the
provider message with its SIP status code and status, shuts the call
context down, and never awaits the session-start task nor waits for a
participant join. -/
theorem dial_error_triggers_shutdown (room phone msg code status : String) :
    entrypoint room phone (DialOutcome.twirpError msg code status) =
      [CStep.logInfo ("connecting to room " ++ room),
       CStep.registerShutdownCallback,
       CStep.connect,
       CStep.buildAgentAndSession,
       CStep.startSessionTask,
       CStep.dialSip phone,
       CStep.logError ("error creating SIP participant: " ++ msg ++ ", SIP status: " ++ code ++ " " ++ status),
       CStep.shutdownCtx] ∧
    (entrypoint room phone (DialOutcome.twirpError msg code status)).contains
        CStep.awaitSessionStart = false ∧
    (entrypoint room phone (DialOutcome.twirpError msg code status)).filter
        CStep.isWaitParticipant = [] := ⟨rfl, rfl, rfl⟩
